import Mathlib

/-!
Verification of the native-callable subsystem (`vm/src/obj/objbuiltinfunc.rs`):
`PyFuncDef` (FunctionDefinition), `PyBuiltinFunction` (PlainFunction) and
`PyBuiltinMethod` (MethodDescriptor), together with the descriptor-get binding
algorithm.  Definitions are a shallow embedding of the Rust source; external
collaborators that the source calls but that are outside the given file (the
descriptor-validation helper, the bound-method constructor and the bound-method
call rule, the `is_none` / `unwrap_or_none` runtime queries) are modelled from
the specification, each marked `Modelled from the spec:` in its doc comment.
-/

/-- Object identities: every runtime object has a numeric identity; identity
comparison (`a.is(b)` in the source) is equality of identities. -/
abbrev ObjId := Nat

/-- Interned string references (`PyStrRef`); interning is modelled as the
string value itself. -/
abbrev PyStrRef := String

/-- A shared object reference: an identity plus the identity of its class
object (`obj.class()` returns the class's reference, compared by identity). -/
structure PyObjectRef where
  id : ObjId
  cls : ObjId
deriving DecidableEq

/-- Error values surfaced to the interpreted layer (`PyBaseExceptionRef`):
either the descriptor-access type mismatch produced by the validation helper,
or an arbitrary error produced by a native entry point. -/
inductive PyErr
  | typeMismatch (instanceCls ownerCls : ObjId)
  | nativeError (code : Nat)
deriving DecidableEq

/-- `PyResult`: a native call either returns an object or fails with an error. -/
abbrev PyResult := Except PyErr PyObjectRef

/-- The runtime-context handle (`&VirtualMachine`): the none singleton and the
class-identity introspection used by the descriptor-validation helper.
`typecheck a b` holds when an instance of class `a` may legitimately trigger a
descriptor owned by class `b` (equality or subclassing, decided by the broader
object model). -/
structure VirtualMachine where
  noneObj : PyObjectRef
  typecheck : ObjId → ObjId → Bool

/-- `vm.is_none(obj)`: identity comparison against the none singleton. -/
def VirtualMachine.is_none (vm : VirtualMachine) (o : PyObjectRef) : Bool :=
  o.id == vm.noneObj.id

/-- `vm.unwrap_or_none(opt)`: the contained object, or the none singleton. -/
def VirtualMachine.unwrap_or_none (vm : VirtualMachine) :
    Option PyObjectRef → PyObjectRef
  | some o => o
  | none => vm.noneObj

/-- The call-argument bundle (`PyFuncArgs`), passed through unchanged. -/
abbrev PyFuncArgs := List PyObjectRef

/-- A native entry point (`PyNativeFunc`): invoked with the runtime handle and
an argument bundle, returning a result-or-error value. -/
abbrev PyNativeFunc := VirtualMachine → PyFuncArgs → PyResult

/-- The context handle (`&PyContext`); `new_stringref` interns a string. -/
structure PyContext where
  new_stringref : String → PyStrRef

/-- `PyFuncDef`: the immutable triple of a native entry point, an optional
name and an optional docstring. -/
structure PyFuncDef where
  func : PyNativeFunc
  name : Option PyStrRef
  doc : Option PyStrRef

/-- `impl From<PyNativeFunc> for PyFuncDef`: wraps an entry point with no
name and no doc.  Total: no failure mode. -/
def PyFuncDef.ofNativeFunc (f : PyNativeFunc) : PyFuncDef :=
  { func := f, name := none, doc := none }

/-- `PyFuncDef::with_doc`: attaches a docstring (interned through the
context), overwriting any previous one; entry point and name are unchanged. -/
def PyFuncDef.with_doc (d : PyFuncDef) (doc : String) (ctx : PyContext) :
    PyFuncDef :=
  { d with doc := some (ctx.new_stringref doc) }

/-- `PyBuiltinFunction` (PlainFunction): a `PyFuncDef` plus an optional
defining-module reference. -/
structure PyBuiltinFunction where
  value : PyFuncDef
  module : Option PyObjectRef

/-- `impl From<PyFuncDef> for PyBuiltinFunction`: wraps the definition with
no module set. -/
def PyBuiltinFunction.ofFuncDef (d : PyFuncDef) : PyBuiltinFunction :=
  { value := d, module := none }

/-- `PyBuiltinFunction::with_module`: attaches the defining-module
reference. -/
def PyBuiltinFunction.with_module (f : PyBuiltinFunction) (m : PyObjectRef) :
    PyBuiltinFunction :=
  { f with module := some m }

/-- `impl Callable for PyBuiltinFunction`: `(zelf.value.func)(vm, args)` —
a single direct application of the stored entry point, forwarding the runtime
handle and the argument bundle unchanged and returning its result verbatim. -/
def PyBuiltinFunction.call (zelf : PyBuiltinFunction) (args : PyFuncArgs)
    (vm : VirtualMachine) : PyResult :=
  zelf.value.func vm args

/-- `__module__` property of `PyBuiltinFunction`:
`vm.unwrap_or_none(self.module.clone())`. -/
def PyBuiltinFunction.dunder_module (zelf : PyBuiltinFunction)
    (vm : VirtualMachine) : PyObjectRef :=
  vm.unwrap_or_none zelf.module

/-- `__name__` property of `PyBuiltinFunction`. -/
def PyBuiltinFunction.dunder_name (zelf : PyBuiltinFunction) :
    Option PyStrRef :=
  zelf.value.name

/-- `__doc__` property of `PyBuiltinFunction`. -/
def PyBuiltinFunction.dunder_doc (zelf : PyBuiltinFunction) :
    Option PyStrRef :=
  zelf.value.doc

/-- `PyBuiltinMethod` (MethodDescriptor): a `PyFuncDef` only — no module
reference. -/
structure PyBuiltinMethod where
  value : PyFuncDef

/-- `impl From<PyFuncDef> for PyBuiltinMethod`. -/
def PyBuiltinMethod.ofFuncDef (d : PyFuncDef) : PyBuiltinMethod :=
  { value := d }

/-- `PyBuiltinMethod::new_with_name`: builds the descriptor directly from an
entry point and a name; the doc is left unset. -/
def PyBuiltinMethod.new_with_name (func : PyNativeFunc) (name : PyStrRef) :
    PyBuiltinMethod :=
  { value := { func := func, name := some name, doc := none } }

/-- `impl Callable for PyBuiltinMethod`: `(zelf.value.func)(vm, args)` — the
same single direct application as for `PyBuiltinFunction`. -/
def PyBuiltinMethod.call (zelf : PyBuiltinMethod) (args : PyFuncArgs)
    (vm : VirtualMachine) : PyResult :=
  zelf.value.func vm args

/-- `__name__` property of `PyBuiltinMethod`. -/
def PyBuiltinMethod.dunder_name (zelf : PyBuiltinMethod) : Option PyStrRef :=
  zelf.value.name

/-- `__doc__` property of `PyBuiltinMethod`. -/
def PyBuiltinMethod.dunder_doc (zelf : PyBuiltinMethod) : Option PyStrRef :=
  zelf.value.doc

/-- The attribute surface installed on the `builtin_function_or_method`
class by the `#[pyimpl]` block: `__module__`, `__name__`, `__doc__`. -/
def PyBuiltinFunction.exposedProperties : List String :=
  ["__module__", "__name__", "__doc__"]

/-- The attribute surface installed on the `method_descriptor` class by the
`#[pyimpl]` block: `__name__`, `__doc__` (no `__module__`). -/
def PyBuiltinMethod.exposedProperties : List String :=
  ["__name__", "__doc__"]

/-- A method-descriptor object as it lives in a class's attribute table: its
object reference (identity), the identity of its owning class (used by the
descriptor-validation helper), and the `PyBuiltinMethod` payload. -/
structure MethodDescriptorObj where
  ref : PyObjectRef
  owner : ObjId
  payload : PyBuiltinMethod

/-- Allocation state of the object heap: the next fresh object identity. -/
structure Heap where
  nextId : ObjId
deriving DecidableEq

/-- A bound-method object: a fresh identity pairing the shared descriptor
with the bound target. -/
structure BoundMethodObj where
  id : ObjId
  function : MethodDescriptorObj
  target : PyObjectRef

/-- Modelled from the spec: the bound-method constructor
`make_bound_method(callable_ref, target_ref)` (external collaborator,
`vm.ctx.new_bound_method` in the source) allocates a fresh object — no
caching, no pooling — pairing the descriptor with the target. -/
def new_bound_method (σ : Heap) (d : MethodDescriptorObj)
    (target : PyObjectRef) : BoundMethodObj × Heap :=
  ({ id := σ.nextId, function := d, target := target }, { nextId := σ.nextId + 1 })

/-- Modelled from the spec: invoking a bound method implicitly supplies the
bound target as the first call argument to the underlying callable (the
bound-method object type is an external collaborator). -/
def BoundMethodObj.call (b : BoundMethodObj) (vm : VirtualMachine)
    (args : PyFuncArgs) : PyResult :=
  b.function.payload.value.func vm (b.target :: args)

/-- The value returned by a successful `descr_get`: either the descriptor
itself, unbound (`zelf.into_object()` — the identical object), or a freshly
manufactured bound-method object. -/
inductive DescrGetValue
  | descriptor (d : MethodDescriptorObj)
  | boundMethod (b : BoundMethodObj)

/-- Modelled from the spec: `Self::_cls_is(&cls, &obj.class())` (external
collaborator in `slots.rs`) — whether the optional requested-class reference
is identity-equal to the given class. -/
def cls_is (cls : Option PyObjectRef) (c : ObjId) : Bool :=
  match cls with
  | some co => co.id == c
  | none => false

/-- Modelled from the spec: the shared descriptor-access validation helper
`Self::_check` (external collaborator in `slots.rs`).  It normalizes
`(instance, requested_class)` into a resolved `(descriptor, effective_target)`
pair — an absent instance resolves to the none singleton — or short-circuits
with a type-mismatch failure when the instance's class is incompatible with
the descriptor's owning class; the `Err` arm carries the full result that
`descr_get` returns unchanged. -/
def descr_check (vm : VirtualMachine) (d : MethodDescriptorObj)
    (obj : Option PyObjectRef) :
    Except (Except PyErr DescrGetValue) (MethodDescriptorObj × PyObjectRef) :=
  match obj with
  | none => .ok (d, vm.noneObj)
  | some o =>
    if vm.typecheck o.cls d.owner then .ok (d, o)
    else .error (.error (.typeMismatch o.cls d.owner))

/-- `impl SlotDescriptor for PyBuiltinMethod::descr_get`: validate through
`descr_check`, returning its failure unchanged; if the effective target is
the none singleton and the requested class is not identity-equal to the
target's class, return the descriptor itself unbound; otherwise manufacture
a fresh bound-method object pairing the descriptor with the target. -/
def descr_get (vm : VirtualMachine) (σ : Heap) (zelf : MethodDescriptorObj)
    (obj : Option PyObjectRef) (cls : Option PyObjectRef) :
    Except PyErr DescrGetValue × Heap :=
  match descr_check vm zelf obj with
  | .error r => (r, σ)
  | .ok (zelf, o) =>
    if vm.is_none o && !(cls_is cls o.cls) then
      (.ok (.descriptor zelf), σ)
    else
      let p := new_bound_method σ zelf o
      (.ok (.boundMethod p.1), p.2)

/-- C5: invoking the wrapper built from a `PyFuncDef` — whether as a
`PyBuiltinFunction` or a `PyBuiltinMethod` — is definitionally a single
application of the stored native entry point to the forwarded runtime handle
and argument bundle, so the entry point is called exactly once and its
result, success or error, is returned with no wrapping or translation. -/
theorem call_forwards_unchanged (d : PyFuncDef) (m : Option PyObjectRef)
    (vm : VirtualMachine) (args : PyFuncArgs) :
    PyBuiltinFunction.call { value := d, module := m } args vm = d.func vm args ∧
    PyBuiltinMethod.call { value := d } args vm = d.func vm args :=
  ⟨rfl, rfl⟩

/-- C6: the `method_descriptor` class exposes no `__module__` attribute while
the `builtin_function_or_method` class does; both expose `__name__` and
`__doc__`. -/
theorem exposed_properties_asymmetry :
    "__module__" ∉ PyBuiltinMethod.exposedProperties ∧
    "__module__" ∈ PyBuiltinFunction.exposedProperties ∧
    "__name__" ∈ PyBuiltinFunction.exposedProperties ∧
    "__name__" ∈ PyBuiltinMethod.exposedProperties ∧
    "__doc__" ∈ PyBuiltinFunction.exposedProperties ∧
    "__doc__" ∈ PyBuiltinMethod.exposedProperties := by
  decide

/-- C7: the `__module__` property of a `PyBuiltinFunction` yields the module
attached via `with_module`, and the none singleton when no module was
attached.  The wrapper is an immutable value — every operation on it after
construction is a pure function that returns no modified wrapper — so this
value never changes. -/
theorem dunder_module_reflects_construction (d : PyFuncDef) (m : PyObjectRef)
    (vm : VirtualMachine) :
    ((PyBuiltinFunction.ofFuncDef d).with_module m).dunder_module vm = m ∧
    (PyBuiltinFunction.ofFuncDef d).dunder_module vm = vm.noneObj :=
  ⟨rfl, rfl⟩

/-- C9: building a `PyFuncDef` from a native entry point yields no name and
no doc (and is total, so it never fails), and `with_doc` applied twice is the
same definition as the later `with_doc` alone: the later call overwrites the
earlier doc and leaves the entry point and name unchanged. -/
theorem funcdef_builder_laws (f : PyNativeFunc) (d : PyFuncDef)
    (a b : String) (ctx : PyContext) :
    (PyFuncDef.ofNativeFunc f).name = none ∧
    (PyFuncDef.ofNativeFunc f).doc = none ∧
    (PyFuncDef.ofNativeFunc f).func = f ∧
    (d.with_doc a ctx).with_doc b ctx = d.with_doc b ctx ∧
    ((d.with_doc a ctx).with_doc b ctx).func = d.func ∧
    ((d.with_doc a ctx).with_doc b ctx).name = d.name :=
  ⟨rfl, rfl, rfl, rfl, rfl, rfl⟩

/-- C10: `new_with_name` produces a descriptor whose `__name__` is the given
name, whose `__doc__` is absent, and whose invocation forwards directly to
the given native entry point — a name is attached without the `PyFuncDef`
builder, and this path never sets a doc. -/
theorem new_with_name_spec (f : PyNativeFunc) (n : PyStrRef)
    (vm : VirtualMachine) (args : PyFuncArgs) :
    (PyBuiltinMethod.new_with_name f n).dunder_name = some n ∧
    (PyBuiltinMethod.new_with_name f n).dunder_doc = none ∧
    (PyBuiltinMethod.new_with_name f n).call args vm = f vm args :=
  ⟨rfl, rfl, rfl⟩

/-- C1: accessing a method descriptor through a genuine instance accepted by
the validation helper manufactures a fresh bound-method object pairing the
descriptor with that instance, and invoking the bound method forwards to the
same native entry point as invoking the descriptor directly, with the target
supplied as the first argument. -/
theorem descr_get_binds_instance (vm : VirtualMachine) (σ : Heap)
    (d : MethodDescriptorObj) (i : PyObjectRef) (cls : Option PyObjectRef)
    (hcheck : vm.typecheck i.cls d.owner = true)
    (hinst : vm.is_none i = false) :
    descr_get vm σ d (some i) cls =
      (.ok (.boundMethod { id := σ.nextId, function := d, target := i }),
        { nextId := σ.nextId + 1 }) ∧
    (∀ args : PyFuncArgs,
      BoundMethodObj.call { id := σ.nextId, function := d, target := i } vm args =
        d.payload.call (i :: args) vm) := by
  constructor
  · simp [descr_get, descr_check, hcheck, hinst, new_bound_method]
  · intro args
    rfl

/-- A sample native entry point used for concrete evaluations. -/
def fW : PyNativeFunc := fun _ args => .ok ⟨args.length, 0⟩

/-- A concrete runtime: the none singleton has identity 0 and class 1
(the none type); class compatibility is class-identity equality. -/
def vmW : VirtualMachine :=
  { noneObj := ⟨0, 1⟩, typecheck := fun a b => a == b }

/-- A concrete method descriptor owned by class 5. -/
def dW : MethodDescriptorObj :=
  { ref := ⟨7, 3⟩, owner := 5, payload := ⟨⟨fW, some "append", none⟩⟩ }

/-- A concrete instance of class 5. -/
def iW : PyObjectRef := ⟨8, 5⟩

theorem descr_get_binds_instance_witness :
    descr_get vmW ⟨10⟩ dW (some iW) (some ⟨5, 2⟩) =
      (.ok (.boundMethod { id := 10, function := dW, target := iW }), ⟨11⟩) ∧
    BoundMethodObj.call { id := 10, function := dW, target := iW } vmW [⟨9, 4⟩] =
      dW.payload.call (iW :: [⟨9, 4⟩]) vmW := by
  have h := descr_get_binds_instance vmW ⟨10⟩ dW iW (some ⟨5, 2⟩)
    (by decide) (by decide)
  exact ⟨h.1, h.2 [⟨9, 4⟩]⟩

/-- C4: when the validation helper rejects the instance (its class is
incompatible with the descriptor's owner), `descr_get` fails with the
helper's type-mismatch error, returned unchanged, and the heap is untouched:
no bound-method object is produced. -/
theorem descr_get_type_mismatch (vm : VirtualMachine) (σ : Heap)
    (d : MethodDescriptorObj) (j : PyObjectRef) (cls : Option PyObjectRef)
    (hfail : vm.typecheck j.cls d.owner = false) :
    descr_check vm d (some j) =
      .error (.error (.typeMismatch j.cls d.owner)) ∧
    descr_get vm σ d (some j) cls =
      (.error (.typeMismatch j.cls d.owner), σ) := by
  constructor
  · simp [descr_check, hfail]
  · simp [descr_get, descr_check, hfail]

/-- A concrete instance of class 7, unrelated to `dW`'s owner 5. -/
def jW : PyObjectRef := ⟨9, 7⟩

theorem descr_get_type_mismatch_witness :
    descr_check vmW dW (some jW) = .error (.error (.typeMismatch 7 5)) ∧
    descr_get vmW ⟨10⟩ dW (some jW) (some ⟨5, 2⟩) =
      (.error (.typeMismatch 7 5), ⟨10⟩) :=
  descr_get_type_mismatch vmW ⟨10⟩ dW jW (some ⟨5, 2⟩) (by decide)

/-- A concrete method descriptor owned by the none type (class identity 1,
the class of `vmW.noneObj`); the none type legitimately owns method
descriptors in the broader object model. -/
def dN : MethodDescriptorObj :=
  { ref := ⟨3, 2⟩, owner := 1, payload := ⟨⟨fW, none, none⟩⟩ }

/-- C2 counterexample: for a descriptor owned by the none type, class-level
access `descr_get(None, Some(owner))` does not return the descriptor itself:
the requested class is identity-equal to the none singleton's class, so the
source's `!cls_is` guard fails and a bound method targeting the none
singleton is manufactured instead. -/
theorem descr_get_class_access_counterexample :
    descr_get vmW ⟨20⟩ dN none (some ⟨1, 4⟩) =
      (.ok (.boundMethod { id := 20, function := dN, target := ⟨0, 1⟩ }), ⟨21⟩) ∧
    descr_get vmW ⟨20⟩ dN none (some ⟨1, 4⟩) ≠
      (.ok (.descriptor dN), ⟨20⟩) := by
  refine ⟨rfl, fun h => ?_⟩
  have h2 := congrArg (fun p => p.2.nextId) h
  exact absurd h2 (by decide)

/-- C2 (amended): for a descriptor `d` owned by class `C`, where `C` is not
the class of the none singleton, `descr_get(None, Some(C))` returns `d`
itself — the identical descriptor object, unbound — and allocates nothing. -/
theorem descr_get_class_access_unbound (vm : VirtualMachine) (σ : Heap)
    (d : MethodDescriptorObj) (c : PyObjectRef)
    (hown : c.id = d.owner)
    (hne : c.id ≠ vm.noneObj.cls) :
    descr_get vm σ d none (some c) = (.ok (.descriptor d), σ) := by
  simp [descr_get, descr_check, VirtualMachine.is_none, cls_is, hne]

theorem descr_get_class_access_unbound_witness :
    descr_get vmW ⟨20⟩ dW none (some ⟨5, 2⟩) =
      (.ok (.descriptor dW), ⟨20⟩) :=
  descr_get_class_access_unbound vmW ⟨20⟩ dW ⟨5, 2⟩ (by decide) (by decide)

/-- A concrete method descriptor owned by class 6. -/
def dN2 : MethodDescriptorObj :=
  { ref := ⟨4, 2⟩, owner := 6, payload := ⟨⟨fW, some "m", none⟩⟩ }

/-- C3 counterexample: with no instance, choosing the none singleton's class
as the requested class makes `descr_get` manufacture a bound-method object
(targeting the none singleton) rather than return the plain descriptor — so
class-level access without an instance does not always yield the descriptor,
for every choice of requested class. -/
theorem descr_get_no_instance_counterexample :
    descr_get vmW ⟨30⟩ dN2 none (some ⟨1, 4⟩) =
      (.ok (.boundMethod { id := 30, function := dN2, target := ⟨0, 1⟩ }), ⟨31⟩) ∧
    descr_get vmW ⟨30⟩ dN2 none (some ⟨1, 4⟩) ≠
      (.ok (.descriptor dN2), ⟨30⟩) := by
  refine ⟨rfl, fun h => ?_⟩
  have h2 := congrArg (fun p => p.2.nextId) h
  exact absurd h2 (by decide)

/-- C3 (amended): with no instance, `descr_get` returns the plain descriptor
itself for every requested class that is not identity-equal to the none
singleton's class (in particular for every absent requested class); only the
none singleton's class as requested class produces a bound object. -/
theorem descr_get_no_instance_unbound (vm : VirtualMachine) (σ : Heap)
    (d : MethodDescriptorObj) (cls : Option PyObjectRef)
    (hcls : cls_is cls vm.noneObj.cls = false) :
    descr_get vm σ d none cls = (.ok (.descriptor d), σ) := by
  simp [descr_get, descr_check, VirtualMachine.is_none, hcls]

theorem descr_get_no_instance_unbound_witness :
    descr_get vmW ⟨30⟩ dN2 none (some ⟨9, 2⟩) =
      (.ok (.descriptor dN2), ⟨30⟩) :=
  descr_get_no_instance_unbound vmW ⟨30⟩ dN2 (some ⟨9, 2⟩) (by decide)

/-- C8: two successive accesses through the same instance manufacture two
bound-method objects that share the descriptor and the target and behave
identically on every invocation, yet carry distinct fresh identities; the
descriptor value itself appears unchanged in both results (it is never
mutated by an access). -/
theorem descr_get_fresh_per_access (vm : VirtualMachine) (σ : Heap)
    (d : MethodDescriptorObj) (i : PyObjectRef) (cls : Option PyObjectRef)
    (hcheck : vm.typecheck i.cls d.owner = true)
    (hinst : vm.is_none i = false) :
    descr_get vm σ d (some i) cls =
      (.ok (.boundMethod { id := σ.nextId, function := d, target := i }),
        { nextId := σ.nextId + 1 }) ∧
    descr_get vm { nextId := σ.nextId + 1 } d (some i) cls =
      (.ok (.boundMethod { id := σ.nextId + 1, function := d, target := i }),
        { nextId := σ.nextId + 2 }) ∧
    (BoundMethodObj.mk σ.nextId d i).function =
      (BoundMethodObj.mk (σ.nextId + 1) d i).function ∧
    (BoundMethodObj.mk σ.nextId d i).target =
      (BoundMethodObj.mk (σ.nextId + 1) d i).target ∧
    (∀ args : PyFuncArgs,
      (BoundMethodObj.mk σ.nextId d i).call vm args =
        (BoundMethodObj.mk (σ.nextId + 1) d i).call vm args) ∧
    (BoundMethodObj.mk σ.nextId d i).id ≠
      (BoundMethodObj.mk (σ.nextId + 1) d i).id := by
  refine ⟨?_, ?_, rfl, rfl, fun args => rfl, by simp⟩
  · simp [descr_get, descr_check, hcheck, hinst, new_bound_method]
  · simp [descr_get, descr_check, hcheck, hinst, new_bound_method]

theorem descr_get_fresh_per_access_witness :
    descr_get vmW ⟨40⟩ dW (some iW) (some ⟨5, 2⟩) =
      (.ok (.boundMethod { id := 40, function := dW, target := iW }), ⟨41⟩) ∧
    descr_get vmW ⟨41⟩ dW (some iW) (some ⟨5, 2⟩) =
      (.ok (.boundMethod { id := 41, function := dW, target := iW }), ⟨42⟩) ∧
    (BoundMethodObj.mk 40 dW iW).call vmW [] =
      (BoundMethodObj.mk 41 dW iW).call vmW [] ∧
    (BoundMethodObj.mk 40 dW iW).id ≠ (BoundMethodObj.mk 41 dW iW).id := by
  have h := descr_get_fresh_per_access vmW ⟨40⟩ dW iW (some ⟨5, 2⟩)
    (by decide) (by decide)
  exact ⟨h.1, h.2.1, h.2.2.2.2.1 [], h.2.2.2.2.2⟩
